import Mathlib

/-!
Shallow embedding of the galarc-judge-backend service (src/app.py).

State held in MongoDB is modelled explicitly:
 - the submissions collection as a list of stored documents, each a payload
   of JSON fields plus the ObjectId assigned at insert time;
 - the app_state collection as the optional singleton release_config
   document, carrying its results_released boolean (absent document = none).

Each Flask handler becomes a function from the request data and the state
to a response value and the new state.  The PyJWT library and the outbound
aggregator call are external collaborators; they are modelled at the
interface the code uses (see the doc comments on those definitions).
-/

namespace GalarcJudge

/-- JSON values, as far as the handlers inspect them: the validation in
submit_judging distinguishes objects (Python dict) from every other shape. -/
inductive JsonVal where
  | str  : String → JsonVal
  | num  : Int → JsonVal
  | bool : Bool → JsonVal
  | null : JsonVal
  | arr  : List JsonVal → JsonVal
  | obj  : List (String × JsonVal) → JsonVal
  deriving Repr

/-- A JSON object body, as produced by request.get_json() for a dict payload:
an association list of field names to values. -/
abbrev Payload := List (String × JsonVal)

/-- Field lookup on a JSON object, mirroring Python dict .get / `in`. -/
def lookupField (p : Payload) (k : String) : Option JsonVal :=
  match p with
  | [] => none
  | (k', v) :: rest => if k' = k then some v else lookupField rest k

/-- Python `isinstance(v, dict)`. -/
def JsonVal.isDict : JsonVal → Bool
  | .obj _ => true
  | _ => false

/-- A document stored in the submissions collection: the client payload
plus the ObjectId MongoDB assigned at insert time (modelled as a Nat). -/
structure Stored where
  id : Nat
  fields : Payload
  deriving Repr

/-- The database state the handlers read and write: the submissions
collection, the optional release_config document of the app_state
collection (some b = document present with results_released = b,
none = no document yet), and the next ObjectId the store will assign. -/
structure AppState where
  submissions : List Stored
  releaseDoc : Option Bool
  nextId : Nat
  deriving Repr

/-- The fresh deployment: no submissions, no release_config document. -/
def initState : AppState :=
  { submissions := [], releaseDoc := none, nextId := 0 }

/-- The required_fields list of submit_judging (src/app.py line 108). -/
def requiredFields : List String :=
  [("judgeName"), ("teamName"), ("hackathonTrack"), ("scores"), ("submissionTimestamp")]

/-- Outcome of submit_judging: 201 with the new id, or 400 with a reason. -/
inductive SubmitResult where
  | created (id : String)
  | badRequest (reason : String)
  deriving Repr, DecidableEq

/-- Python isinstance(new_submission.get('scores'), dict): true iff the
payload has a scores field and that field is an object. -/
def scoresIsDict (payload : Payload) : Bool :=
  match lookupField payload ("scores") with
  | some v => v.isDict
  | none => false

/-- The submit_judging handler (src/app.py lines 95-123): checks the five
required fields are present, checks scores is a dict, then inserts the
payload as given (insert_one assigns the ObjectId; nothing is added to the
document by the handler) and returns the id as a string. -/
def submit_judging (st : AppState) (payload : Payload) : SubmitResult × AppState :=
  if ¬ requiredFields.all (fun f => (lookupField payload f).isSome) then
    (.badRequest ("Missing required fields in submission"), st)
  else if ¬ scoresIsDict payload then
    (.badRequest ("Scores field must be an object"), st)
  else
    (.created (toString st.nextId),
      { st with
        submissions := st.submissions ++ [{ id := st.nextId, fields := payload }],
        nextId := st.nextId + 1 })

/-- Outcome of get_results: 403, or 200 with the serialized documents. -/
inductive GetResultsResult where
  | forbidden
  | ok (results : List Payload)
  deriving Repr

/-- Serialization of one stored document for the 200 response of
get_results: the stored fields with the _id converted to a string
(src/app.py lines 144-145). -/
def serializeStored (r : Stored) : Payload :=
  r.fields ++ [(("_id"), JsonVal.str (toString r.id))]

/-- The get_results handler (src/app.py lines 125-150): reads the
release_config document; if it is absent or its results_released flag is
false the request is blocked with 403, otherwise every stored submission
is returned with its _id serialized as a string. -/
def get_results (st : AppState) : GetResultsResult :=
  match st.releaseDoc with
  | none => .forbidden
  | some flag =>
      if flag then .ok (st.submissions.map serializeStored)
      else .forbidden

/-- The two logical states of the release gate named by the spec. -/
inductive GateState where
  | retracted
  | released
  deriving Repr, DecidableEq

/-- The gate state denoted by the release_config document: Released iff the
document exists and carries results_released = true; a missing document
reads as Retracted (the code defaults the flag to False, src/app.py
lines 135 and 160). -/
def gateState (doc : Option Bool) : GateState :=
  if doc.getD false then .released else .retracted

/-- The release_results handler (src/app.py lines 163-179): upserts the
release_config document with results_released = true. -/
def release_results (st : AppState) : AppState :=
  { st with releaseDoc := some true }

/-- The retract_results handler (src/app.py lines 181-196): upserts the
release_config document with results_released = false. -/
def retract_results (st : AppState) : AppState :=
  { st with releaseDoc := some false }

/-- The claims carried in a JWT payload as this service issues and reads
them: an optional admin flag (present iff the issuer put it there) and the
registered exp claim, a Unix timestamp in seconds. -/
structure TokenClaims where
  admin : Option Bool
  exp : Nat
  deriving Repr, DecidableEq

/-- Modelled from the spec: the HS256 MAC computed by the external PyJWT
library is idealized as the pair of the signing secret and the signed
claims, so that a signature verifies under a secret iff it was produced
under that same secret over those same claims. -/
def hs256Sign (secret : String) (c : TokenClaims) : String × TokenClaims :=
  (secret, c)

/-- A decoded JWT: its claims payload and the signature attached to it. -/
structure Token where
  claims : TokenClaims
  sig : String × TokenClaims
  deriving Repr, DecidableEq

/-- Outcome of jwt.decode: success, ExpiredSignatureError, or
InvalidTokenError (which covers a signature that does not verify). -/
inductive DecodeResult where
  | ok
  | expired
  | invalid
  deriving Repr, DecidableEq

/-- Modelled from the spec: jwt.decode(token, SECRET_KEY,
algorithms=["HS256"]) of the external PyJWT library.  The signature is
checked first (failure raises InvalidTokenError), then the exp claim: per
the spec invariant a token is valid iff its signature verifies under the
shared secret and now < expiresAt; an exp not in the future raises
ExpiredSignatureError. -/
def jwt_decode (secret : String) (now : Nat) (t : Token) : DecodeResult :=
  if t.sig = hs256Sign secret t.claims then
    if now < t.claims.exp then .ok else .expired
  else .invalid

/-- Outcome of admin_login: 200 with a token, 400 (missing password), or
401 (invalid credentials). -/
inductive LoginResult where
  | ok (token : Token)
  | badRequest
  | unauthorized
  deriving Repr, DecidableEq

/-- The admin_login handler (src/app.py lines 70-93).  The password
argument is data.get('password'): none when the field is absent.  Python
`if not password` sends both an absent and an empty-string password to the
400 branch; otherwise the password is compared to ADMIN_PASSWORD with
plain string equality and on a match a token carrying admin = True and
exp = now + 8 hours is signed with SECRET_KEY. -/
def admin_login (adminPassword secret : String) (now : Nat)
    (password : Option String) : LoginResult :=
  match password with
  | none => .badRequest
  | some p =>
      if p = "" then .badRequest
      else if p = adminPassword then
        .ok { claims := { admin := some true, exp := now + 8 * 3600 },
              sig := hs256Sign secret { admin := some true, exp := now + 8 * 3600 } }
      else .unauthorized

/-- Outcome of the token_required wrapper: the wrapped handler runs, or one
of the four 401 rejections of src/app.py lines 41-64. -/
inductive AuthResult where
  | ok
  | malformedHeader
  | missingToken
  | expired
  | invalid
  deriving Repr, DecidableEq

/-- Splitting a character list at every space, keeping empty pieces: the
semantics of Python str.split(" ") with an explicit single-space
separator.  The result is never empty; the empty input yields one empty
piece, as "".split(" ") yields [""] in Python. -/
def splitChars : List Char → List (List Char)
  | [] => [[]]
  | c :: rest =>
      match splitChars rest with
      | [] => [[c]]
      | h :: t => if c = ' ' then [] :: h :: t else (c :: h) :: t

/-- Python auth_header.split(" "): the header split at every single space,
empty pieces kept (src/app.py line 48). -/
def pySplitSpace (s : String) : List String :=
  (splitChars s.toList).map String.mk

/-- The token_required wrapper (src/app.py lines 41-64).  The wire argument
abstracts PyJWT parsing of the compact token serialization carried in the
header: strings that are not well-formed JWTs decode to none and raise
InvalidTokenError inside jwt.decode.  The header string is split on single
spaces exactly as Python auth_header.split(" "); element 1 is the token,
an IndexError there yields the Malformed rejection, and a missing header
or an empty extracted token yields the Missing rejection. -/
def checkHeaderToken (wire : String → Option Token) (secret : String)
    (now : Nat) (h : String) : AuthResult :=
  match (pySplitSpace h).get? 1 with
  | none => .malformedHeader
  | some tstr =>
      if tstr = "" then .missingToken
      else
        match wire tstr with
        | none => .invalid
        | some t =>
            match jwt_decode secret now t with
            | .ok => .ok
            | .expired => .expired
            | .invalid => .invalid

/-- A request with no Authorization header at all is rejected as Missing;
one with a header goes through the header check above. -/
def token_required (wire : String → Option Token) (secret : String) (now : Nat)
    (header : Option String) : AuthResult :=
  match header with
  | none => .missingToken
  | some h => checkHeaderToken wire secret now h

/-- The JSON body of the 200 response of clear_results (src/app.py line
228): only a status and a message key; the deleted count appears inside
the message text, not as a field of its own. -/
def clearResponse (deletedCount : Nat) : List (String × String) :=
  [(("status"), ("success")),
   (("message"),
     ("Results cleared. ") ++ toString deletedCount ++ (" submissions deleted."))]

/-- The clear_results handler (src/app.py lines 218-231): delete_many({})
removes every document of the submissions collection and reports how many
it removed; the release_config document is untouched. -/
def clear_results (st : AppState) : (List (String × String)) × AppState :=
  (clearResponse st.submissions.length, { st with submissions := [] })

/-- Outcome of the outbound requests.post to the aggregator, an external
collaborator: success, or any requests.exceptions.RequestException
(connection failure, the 10-second timeout, or a bad status raised by
raise_for_status). -/
inductive AggOutcome where
  | success
  | requestError
  deriving Repr, DecidableEq

/-- Outcome of refresh_aggregator as seen by the caller: 200 or 500. -/
inductive AggResult where
  | ok
  | serverError
  deriving Repr, DecidableEq

/-- The refresh_aggregator handler (src/app.py lines 198-216): a missing or
empty AGGREGATOR_URL aborts with 500 before any call is made; otherwise
one outbound POST happens and a RequestException aborts with 500.  The
handler never reads or writes the submissions or app_state collections,
so the database state passes through unchanged. -/
def refresh_aggregator (aggregatorUrl : Option String) (outcome : AggOutcome)
    (st : AppState) : AggResult × AppState :=
  if aggregatorUrl = none ∨ aggregatorUrl = some "" then (.serverError, st)
  else
    match outcome with
    | .success => (.ok, st)
    | .requestError => (.serverError, st)

/-- The valid payload of the scenario in the spec's testable properties. -/
def examplePayload : Payload :=
  [(("judgeName"), .str ("A")),
   (("teamName"), .str ("B")),
   (("hackathonTrack"), .str ("AI")),
   (("scores"), .obj [(("design"), .num 8)]),
   (("submissionTimestamp"), .str ("2024-01-01T00:00:00Z"))]

/-- A state holding exactly one stored submission. -/
def oneRecordState : AppState :=
  { submissions := [{ id := 0, fields := examplePayload }],
    releaseDoc := none, nextId := 1 }

/-- C7: release and retract are idempotent — a second release (or retract)
leaves the state of a single call unchanged — and retract after release
restores the Forbidden behavior of the public read path. -/
theorem release_retract_idempotent (st : AppState) :
    release_results (release_results st) = release_results st ∧
    retract_results (retract_results st) = retract_results st ∧
    get_results (retract_results (release_results st)) = .forbidden ∧
    gateState (retract_results (release_results st)).releaseDoc = .retracted :=
  ⟨rfl, rfl, rfl, rfl⟩

/-- C2: get_results answers Forbidden iff the gate is Retracted, a missing
release-state document behaves exactly like one with released = false, and
whenever the gate is Released the stored submissions are returned. -/
theorem get_results_forbidden_iff_retracted (st : AppState) :
    (get_results st = .forbidden ↔ gateState st.releaseDoc = .retracted) ∧
    get_results { st with releaseDoc := none } =
      get_results { st with releaseDoc := some false } ∧
    (gateState st.releaseDoc = .released →
      get_results st = .ok (st.submissions.map serializeStored)) := by
  obtain ⟨subs, doc, nid⟩ := st
  cases doc with
  | none => simp [get_results, gateState]
  | some b => cases b <;> simp [get_results, gateState]

/-- Witness for C2 at a released one-state: the read is allowed. -/
theorem get_results_forbidden_iff_retracted_witness :
    get_results { submissions := [], releaseDoc := some true, nextId := 0 } =
      .ok [] :=
  (get_results_forbidden_iff_retracted
    { submissions := [], releaseDoc := some true, nextId := 0 }).2.2 rfl

/-- C5 counterexample: clearing a store holding one record empties it, but
the 200 response has only status and message keys — there is no
deletedCount field; the count appears only inside the message text. -/
theorem clear_response_lacks_deletedCount :
    (clear_results oneRecordState).2.submissions = [] ∧
    ((clear_results oneRecordState).1.map Prod.fst) = [("status"), ("message")] ∧
    ((clear_results oneRecordState).1.lookup ("deletedCount")) = none :=
  ⟨rfl, rfl, rfl⟩

/-- C5 amended: clearAll removes every record and reports the number
removed inside the response message; the release state is untouched; a
second call reports 0 deletions and is a no-op (idempotent). -/
theorem clear_results_count_and_idempotent (st : AppState) :
    ((clear_results st).1.lookup ("status")) = some ("success") ∧
    ((clear_results st).1.lookup ("message")) =
      some (("Results cleared. ") ++ toString st.submissions.length ++
            (" submissions deleted.")) ∧
    (clear_results st).2.submissions = [] ∧
    (clear_results st).2.releaseDoc = st.releaseDoc ∧
    ((clear_results (clear_results st).2).1.lookup ("message")) =
      some ("Results cleared. 0 submissions deleted.") ∧
    (clear_results (clear_results st).2).2 = (clear_results st).2 := by
  refine ⟨rfl, rfl, rfl, rfl, ?_, rfl⟩
  show ((clearResponse 0).lookup ("message")) =
    some ("Results cleared. 0 submissions deleted.")
  rfl

/-- C1 counterexample: the spec's own scenario payload is accepted, yet the
record stored — and later served by get_results after a release — is the
client payload verbatim plus the ObjectId; it carries no receivedAt field,
because the handler inserts request.get_json() unchanged. -/
theorem stored_record_has_no_receivedAt :
    (submit_judging initState examplePayload).1 = .created ("0") ∧
    (submit_judging initState examplePayload).2.submissions =
      [{ id := 0, fields := examplePayload }] ∧
    get_results (release_results (submit_judging initState examplePayload).2) =
      .ok [serializeStored { id := 0, fields := examplePayload }] ∧
    lookupField (serializeStored { id := 0, fields := examplePayload })
      ("receivedAt") = none :=
  ⟨rfl, rfl, rfl, rfl⟩

/-- C1 amended: a payload passing validation is stored verbatim with the
assigned id — the server adds no receivedAt (nor any other) field, so the
stored record contains exactly the submitted fields. -/
theorem submit_stores_payload_verbatim (st : AppState) (p : Payload)
    (hfields : requiredFields.all (fun f => (lookupField p f).isSome) = true)
    (hscores : scoresIsDict p = true) :
    (submit_judging st p).1 = .created (toString st.nextId) ∧
    (submit_judging st p).2.submissions =
      st.submissions ++ [{ id := st.nextId, fields := p }] := by
  simp [submit_judging, hfields, hscores]

/-- Witness for the amended C1 at the scenario payload. -/
theorem submit_stores_payload_verbatim_witness :
    (submit_judging initState examplePayload).2.submissions =
      [{ id := 0, fields := examplePayload }] :=
  (submit_stores_payload_verbatim initState examplePayload rfl rfl).2

/-- C4: a payload missing one of the five required fields, or whose scores
field is not an object, is answered 400 with a reason and the store is
left unchanged — validation happens before the insert. -/
theorem submit_invalid_rejected_without_storage (st : AppState) (p : Payload)
    (h : requiredFields.all (fun f => (lookupField p f).isSome) = false ∨
         scoresIsDict p = false) :
    (∃ reason, (submit_judging st p).1 = SubmitResult.badRequest reason) ∧
    (submit_judging st p).2 = st := by
  rcases h with h | h
  · exact ⟨⟨("Missing required fields in submission"),
      by simp [submit_judging, h]⟩, by simp [submit_judging, h]⟩
  · by_cases hall : requiredFields.all (fun f => (lookupField p f).isSome) = true
    · exact ⟨⟨("Scores field must be an object"),
        by simp [submit_judging, hall, h]⟩, by simp [submit_judging, hall, h]⟩
    · exact ⟨⟨("Missing required fields in submission"),
        by simp [submit_judging, hall]⟩, by simp [submit_judging, hall]⟩

/-- Witness for C4: the empty payload is rejected and nothing is stored. -/
theorem submit_invalid_rejected_without_storage_witness :
    (∃ reason, (submit_judging initState []).1 = SubmitResult.badRequest reason) ∧
    (submit_judging initState []).2 = initState :=
  submit_invalid_rejected_without_storage initState [] (Or.inl rfl)

/-- C6 counterexample: with admin secret hunter2, the request supplying the
empty-string password — a password that is present and wrong, being
distinct from the secret — is answered 400 (Password is required), not
401 (Invalid credentials): `if not password` in the handler sends an empty
password down the missing-password branch. -/
theorem empty_password_gets_badRequest :
    (some ("") : Option String) ≠ none ∧
    ("") ≠ ("hunter2") ∧
    admin_login ("hunter2") ("k") 0 (some ("")) = .badRequest ∧
    admin_login ("hunter2") ("k") 0 (some ("")) ≠ .unauthorized := by
  refine ⟨by decide, by decide, rfl, by decide⟩

/-- C6 amended: login succeeds iff the supplied password equals the
configured non-empty admin secret under exact case-sensitive string
equality, and the issued token carries admin = true with expiry 8 hours
after issuance; an absent or empty-string password yields 400; any other
wrong password yields 401. -/
theorem admin_login_correct (adminPassword secret : String) (now : Nat)
    (password : Option String) (hpw : adminPassword ≠ ("")) :
    (admin_login adminPassword secret now password =
        .ok { claims := { admin := some true, exp := now + 8 * 3600 },
              sig := hs256Sign secret { admin := some true, exp := now + 8 * 3600 } }
      ↔ password = some adminPassword) ∧
    ((password = none ∨ password = some ("")) →
      admin_login adminPassword secret now password = .badRequest) ∧
    (∀ p, password = some p → p ≠ ("") → p ≠ adminPassword →
      admin_login adminPassword secret now password = .unauthorized) := by
  cases password with
  | none => simp [admin_login]
  | some p =>
      by_cases hempty : p = ""
      · subst hempty
        simp [admin_login, Ne.symm hpw]
      · by_cases hmatch : p = adminPassword
        · subst hmatch
          simp [admin_login, hempty]
        · simp [admin_login, hempty, hmatch]

/-- Witness for the amended C6: the correct password logs in and gets the
canonical admin token. -/
theorem admin_login_correct_witness :
    admin_login ("pw") ("k") 0 (some ("pw")) =
      .ok { claims := { admin := some true, exp := 28800 },
            sig := (("k"), { admin := some true, exp := 28800 }) } :=
  (admin_login_correct ("pw") ("k") 0 (some ("pw")) (by decide)).1.mpr rfl

/-- C3: a token is accepted iff its signature verifies under the shared
secret and the current time is before the embedded expiry; a token signed
under any other secret is rejected as invalid; and a token issued by a
successful login validates immediately, is rejected as expired once its
expiry has passed, and fails under a different secret. -/
theorem token_validation_iff (secret : String) (now : Nat) (t : Token) :
    (jwt_decode secret now t = .ok ↔
      (t.sig = hs256Sign secret t.claims ∧ now < t.claims.exp)) ∧
    (∀ otherSecret, otherSecret ≠ secret →
      t.sig = hs256Sign otherSecret t.claims →
      jwt_decode secret now t = .invalid) ∧
    (∀ adminPassword later tok, adminPassword ≠ ("") →
      admin_login adminPassword secret now (some adminPassword) = .ok tok →
      (jwt_decode secret now tok = .ok ∧
       (tok.claims.exp ≤ later → jwt_decode secret later tok = .expired) ∧
       (∀ otherSecret, otherSecret ≠ secret →
         jwt_decode otherSecret now tok = .invalid))) := by
  refine ⟨?_, ?_, ?_⟩
  · by_cases hsig : t.sig = hs256Sign secret t.claims
    · by_cases hexp : now < t.claims.exp
      · simp [jwt_decode, hsig, hexp]
      · simp [jwt_decode, hsig, hexp]
    · simp [jwt_decode, hsig]
  · intro os hos hsig
    have hne : t.sig ≠ hs256Sign secret t.claims := by
      rw [hsig]
      simp [hs256Sign, hos]
    simp [jwt_decode, hne]
  · intro ap later tok hap hok
    have hcanon :
        ({ claims := { admin := some true, exp := now + 8 * 3600 },
           sig := hs256Sign secret { admin := some true, exp := now + 8 * 3600 } }
          : Token) = tok := by
      simpa [admin_login, hap] using hok
    subst hcanon
    refine ⟨by simp [jwt_decode], ?_, ?_⟩
    · intro hlate
      have : ¬ (later < now + 8 * 3600) := by
        simp only [TokenClaims.exp] at hlate
        omega
      simp [jwt_decode, this]
    · intro os hos
      have hne : (hs256Sign secret { admin := some true, exp := now + 8 * 3600 })
          ≠ hs256Sign os { admin := some true, exp := now + 8 * 3600 } := by
        simp [hs256Sign, Ne.symm hos]
      simp [jwt_decode, hne]

/-- Witness for C3: the login token for secret s validates at once, is
expired 8 hours later, and is invalid under secret x. -/
theorem token_validation_iff_witness :
    jwt_decode ("s") 0
      { claims := { admin := some true, exp := 28800 },
        sig := (("s"), { admin := some true, exp := 28800 }) } = .ok ∧
    jwt_decode ("s") 28800
      { claims := { admin := some true, exp := 28800 },
        sig := (("s"), { admin := some true, exp := 28800 }) } = .expired ∧
    jwt_decode ("x") 0
      { claims := { admin := some true, exp := 28800 },
        sig := (("s"), { admin := some true, exp := 28800 }) } = .invalid := by
  have h := (token_validation_iff ("s") 0
      { claims := { admin := some true, exp := 28800 },
        sig := (("s"), { admin := some true, exp := 28800 }) }).2.2
    ("pw") 28800
    { claims := { admin := some true, exp := 28800 },
      sig := (("s"), { admin := some true, exp := 28800 }) }
    (by decide) rfl
  exact ⟨h.1, h.2.1 (by decide), h.2.2 ("x") (by decide)⟩

/-- C8: refresh_aggregator leaves the whole database state unchanged
whatever the aggregator does, and an unconfigured URL or a failed call is
reported to the caller as a ServerError. -/
theorem refresh_aggregator_preserves_state (url : Option String)
    (outcome : AggOutcome) (st : AppState) :
    (refresh_aggregator url outcome st).2 = st ∧
    ((url = none ∨ url = some ("") ∨ outcome = .requestError) →
      (refresh_aggregator url outcome st).1 = .serverError) := by
  constructor
  · unfold refresh_aggregator
    split
    · rfl
    · cases outcome <;> rfl
  · intro h
    rcases h with h | h | h
    · simp [refresh_aggregator, h]
    · simp [refresh_aggregator, h]
    · subst h
      unfold refresh_aggregator
      split
      · rfl
      · rfl

/-- Witness for C8: with no configured URL the caller sees a ServerError
and the state is untouched. -/
theorem refresh_aggregator_preserves_state_witness :
    (refresh_aggregator none AggOutcome.success initState).1 = .serverError ∧
    (refresh_aggregator none AggOutcome.success initState).2 = initState :=
  ⟨(refresh_aggregator_preserves_state none .success initState).2 (Or.inl rfl),
   (refresh_aggregator_preserves_state none .success initState).1⟩

/-- C9: validation never inspects the token claims beyond exp: a properly
signed unexpired token is accepted whatever its admin claim holds (even
when absent), acceptance does not depend on the admin claim at all, and
the wrapper protecting every admin endpoint accepts a header carrying such
a token. -/
theorem validation_ignores_admin_claim (secret : String) (now e : Nat)
    (a : Option Bool) :
    (now < e →
      jwt_decode secret now
        { claims := { admin := a, exp := e },
          sig := hs256Sign secret { admin := a, exp := e } } = .ok) ∧
    (∀ a2, jwt_decode secret now
        { claims := { admin := a, exp := e },
          sig := hs256Sign secret { admin := a, exp := e } } =
      jwt_decode secret now
        { claims := { admin := a2, exp := e },
          sig := hs256Sign secret { admin := a2, exp := e } }) ∧
    (∀ (wire : String → Option Token) (hdr tstr : String),
      ((pySplitSpace hdr).get? 1 = some tstr) → tstr ≠ ("") →
      wire tstr = some { claims := { admin := a, exp := e },
                         sig := hs256Sign secret { admin := a, exp := e } } →
      now < e →
      token_required wire secret now (some hdr) = .ok) := by
  refine ⟨?_, ?_, ?_⟩
  · intro h
    simp [jwt_decode, h]
  · intro a2
    simp [jwt_decode]
  · intro wire hdr tstr hget hne hwire hlt
    show checkHeaderToken wire secret now hdr = .ok
    unfold checkHeaderToken
    rw [hget]
    simp [hne, hwire, jwt_decode, hlt]

/-- Witness for C9: a token with no admin claim at all passes the
wrapper. -/
theorem validation_ignores_admin_claim_witness :
    token_required
      (fun s => if s = ("t")
        then some { claims := { admin := none, exp := 1 },
                    sig := (("s"), { admin := none, exp := 1 }) }
        else none)
      ("s") 0 (some ("Bearer t")) = .ok :=
  (validation_ignores_admin_claim ("s") 0 1 none).2.2
    (fun s => if s = ("t")
      then some { claims := { admin := none, exp := 1 },
                  sig := (("s"), { admin := none, exp := 1 }) }
      else none)
    ("Bearer t") ("t") rfl (by decide) rfl (by decide)

/-- C10: the scheme word of the Authorization header is never compared to
anything: a header whose space-split has any second element that is a
valid non-empty token passes; a header splitting into a single part is
rejected as Malformed; and a header whose second element is empty is
rejected as Missing, not Malformed. -/
theorem auth_scheme_never_checked (wire : String → Option Token)
    (secret : String) (now : Nat) (hdr : String) :
    (∀ tstr t, (pySplitSpace hdr).get? 1 = some tstr → tstr ≠ ("") →
      wire tstr = some t → jwt_decode secret now t = .ok →
      token_required wire secret now (some hdr) = .ok) ∧
    ((pySplitSpace hdr).length = 1 →
      token_required wire secret now (some hdr) = .malformedHeader) ∧
    ((pySplitSpace hdr).get? 1 = some ("") →
      token_required wire secret now (some hdr) = .missingToken) := by
  refine ⟨?_, ?_, ?_⟩
  · intro tstr t hget hne hwire hdec
    show checkHeaderToken wire secret now hdr = .ok
    unfold checkHeaderToken
    rw [hget]
    simp [hne, hwire, hdec]
  · intro hlen
    have hnone : (pySplitSpace hdr).get? 1 = none := by
      rw [List.get?_eq_none]
      omega
    show checkHeaderToken wire secret now hdr = .malformedHeader
    unfold checkHeaderToken
    rw [hnone]
  · intro hget
    show checkHeaderToken wire secret now hdr = .missingToken
    unfold checkHeaderToken
    rw [hget]
    simp

/-- A decoding environment for the C10 witness: the string tok is the
compact form of a token signed under secret s expiring at 1. -/
def basicWire : String → Option Token := fun s =>
  if s = ("tok")
  then some { claims := { admin := some true, exp := 1 },
              sig := (("s"), { admin := some true, exp := 1 }) }
  else none

/-- Witness for C10: a Basic scheme passes with a valid token, a one-part
header is Malformed, and an empty second part is Missing. -/
theorem auth_scheme_never_checked_witness :
    token_required basicWire ("s") 0 (some ("Basic tok")) = .ok ∧
    token_required basicWire ("s") 0 (some ("Basictok")) = .malformedHeader ∧
    token_required basicWire ("s") 0 (some ("Basic ")) = .missingToken :=
  ⟨(auth_scheme_never_checked basicWire ("s") 0 ("Basic tok")).1
      ("tok") { claims := { admin := some true, exp := 1 },
                sig := (("s"), { admin := some true, exp := 1 }) }
      rfl (by decide) rfl rfl,
   (auth_scheme_never_checked basicWire ("s") 0 ("Basictok")).2.1 rfl,
   (auth_scheme_never_checked basicWire ("s") 0 ("Basic ")).2.2 rfl⟩

end GalarcJudge
